import Mathlib

set_option linter.dupNamespace false

/-!
Verification of the icecream/weather and integrate example contracts
(`examples/icecream/src/lib.rs`, `examples/integrate/src/lib.rs`) together
with the test-chain facade sketched in the icecream `chain_tests` module.
Pure contract logic is translated directly from the Rust source; the parts
of the execution engine whose bodies are absent from the source (they are
`todo!()` stubs or live in the `concordium-std` test infrastructure) are
modelled from the specification and marked as such in their doc comments.
-/

/-- A 32-byte account identity, modelled as its byte list. -/
structure AccountAddress where
  bytes : List Nat
deriving DecidableEq, Repr

/-- A contract address: allocation index and subindex. -/
structure ContractAddress where
  index : Nat
  subindex : Nat
deriving DecidableEq, Repr

/-- Disjoint union of account and contract addresses. -/
inductive Address where
  | Account (addr : AccountAddress)
  | Contract (addr : ContractAddress)
deriving DecidableEq, Repr

/-- A non-negative amount of micro CCD. -/
structure Amount where
  micro_ccd : Nat
deriving DecidableEq, Repr

/-- The two distinguished transfer failures of the host. -/
inductive TransferError where
  | AmountTooLarge
  | MissingAccount
deriving DecidableEq, Repr

/-- Failures of a cross-contract invocation, as in `concordium-std`. -/
inductive CallContractError where
  | AmountTooLarge
  | MissingAccount
  | MissingContract
  | MissingEntrypoint
  | MessageFailed
  | LogicReject (reason : Int) (returnValue : List Nat)
  | Trap
deriving DecidableEq, Repr

/-- Failure of deserializing a parameter or return value. -/
inductive ParseError where
  | ParseFailed
deriving DecidableEq, Repr

/-- Decidable equality of call results, for evaluating concrete runs. -/
instance {E A : Type} [DecidableEq E] [DecidableEq A] : DecidableEq (Except E A) := by
  intro x y
  cases x with
  | ok a =>
    cases y with
    | ok b => exact decidable_of_iff (a = b) (by simp)
    | error f => exact Decidable.isFalse (by simp)
  | error e =>
    cases y with
    | ok b => exact Decidable.isFalse (by simp)
    | error f => exact decidable_of_iff (e = f) (by simp)

/-- The receive context: invoker, owner, sender and the raw parameter bytes. -/
structure ReceiveContext where
  invoker : AccountAddress
  owner : AccountAddress
  sender : Address
  paramBytes : List Nat

/-- The host a receive entrypoint runs against: the typed contract state, the
contract's own balance, which accounts are marked missing, the responses of
cross-contract invocations, and the list of transfers performed so far. -/
structure Host (S : Type) where
  state : S
  selfBalance : Amount
  missing : AccountAddress → Bool
  invokeResponse : ContractAddress → String → Except CallContractError (Bool × Option (List Nat))
  transfers : List (AccountAddress × Amount)

/-- Modelled from the spec: `invoke_transfer` of the test host / the
AccountRegistry debit. A transfer to an account marked missing fails with
`TransferError::MissingAccount` regardless of balance; a transfer of more
than the contract's balance fails with `TransferError::AmountTooLarge`;
otherwise the balance is debited and the transfer appended to the list. -/
def Host.invoke_transfer {S : Type} (h : Host S) (dest : AccountAddress) (amount : Amount) :
    Except TransferError (Host S) :=
  if h.missing dest then
    Except.error TransferError.MissingAccount
  else if h.selfBalance.micro_ccd < amount.micro_ccd then
    Except.error TransferError.AmountTooLarge
  else
    Except.ok { h with
      selfBalance := ⟨h.selfBalance.micro_ccd - amount.micro_ccd⟩,
      transfers := h.transfers ++ [(dest, amount)] }

/-- Energy, a metered resource reported with every call outcome. -/
structure Energy where
  energy : Nat
deriving DecidableEq, Repr

/-- Modelled from the spec: dispatching any contract call consumes a positive
base amount of energy before or while the entrypoint logic runs; the spec
fixes no concrete cost schedule, only that a failed update still reports
energy spent greater than zero. -/
def baseDispatchCost : Nat := 1

/-- Modelled from the spec: the ExecutionEngine runs one top-level call
atomically. On success the mutated host is committed; on failure every
balance, state and transfer mutation performed during the call is rolled
back, so the post-call host is the pre-call host. The reported energy spent
is positive in both cases. The engine bodies in the source are `todo!()`
stubs, so this is the spec's rollback/energy contract. -/
def chainUpdate {S E A : Type} (f : Host S → Except E A × Host S) (host : Host S) :
    Except E A × Host S × Energy :=
  match f host with
  | (Except.ok a, h) => (Except.ok a, h, ⟨baseDispatchCost⟩)
  | (Except.error e, _) => (Except.error e, host, ⟨baseDispatchCost⟩)

/-- Deserialize an `AccountAddress`: read 32 bytes from the cursor. -/
def parseAccountAddress (bs : List Nat) : Except ParseError AccountAddress :=
  if 32 ≤ bs.length then Except.ok ⟨bs.take 32⟩ else Except.error ParseError.ParseFailed

/-- Little-endian interpretation of a byte list. -/
def u64FromLEBytes : List Nat → Nat
  | [] => 0
  | b :: rest => b % 256 + 256 * u64FromLEBytes rest

/-- Deserialize a `ContractAddress`: two little-endian 64-bit words. -/
def parseContractAddress (bs : List Nat) : Except ParseError ContractAddress :=
  if 16 ≤ bs.length then
    Except.ok ⟨u64FromLEBytes (bs.take 8), u64FromLEBytes ((bs.drop 8).take 8)⟩
  else Except.error ParseError.ParseFailed

namespace Icecream

/-- State of the icecream contract: the weather service address. -/
structure State where
  weather_service : ContractAddress
deriving DecidableEq, Repr

/-- The weather, as stored by the weather service contract. -/
inductive Weather where
  | Rainy
  | Sunny
deriving DecidableEq, Repr

/-- The custom errors the icecream and weather contracts can produce. -/
inductive ContractError where
  | ParseParams
  | TransferError
  | ContractError
  | Unauthenticated
deriving DecidableEq, Repr

/-- Conversion from `ParseError` (the `#[from(ParseError)]` attribute). -/
def fromParseError : ParseError → ContractError :=
  fun _ => ContractError.ParseParams

/-- Conversion from `TransferError` (the `#[from(TransferError)]` attribute). -/
def fromTransferError : TransferError → ContractError :=
  fun _ => ContractError.TransferError

/-- The `From<CallContractError<A>>` impl: every call failure maps to
`ContractError::ContractError`. -/
def fromCallContractError : CallContractError → ContractError :=
  fun _ => ContractError.ContractError

/-- Deserialize a `Weather` value: tag byte 0 is `Rainy`, 1 is `Sunny`. -/
def parseWeather (bs : List Nat) : Except ParseError Weather :=
  match bs with
  | 0 :: _ => Except.ok Weather.Rainy
  | 1 :: _ => Except.ok Weather.Sunny
  | _ => Except.error ParseError.ParseFailed

/-- `contract_init`: parse the weather service address from the parameter. -/
def contract_init (paramBytes : List Nat) : Except ParseError State :=
  match parseContractAddress paramBytes with
  | Except.error e => Except.error e
  | Except.ok ws => Except.ok ⟨ws⟩

/-- `weather_init`: parse the initial weather from the parameter. -/
def weather_init (paramBytes : List Nat) : Except ParseError Weather :=
  parseWeather paramBytes

/-- `contract_buy_icecream`: query the weather service's `get` entrypoint;
if sunny, transfer the amount to the vendor given as parameter, otherwise
return it to the invoker. -/
def contract_buy_icecream (ctx : ReceiveContext) (host : Host State) (amount : Amount) :
    Except ContractError Unit × Host State :=
  let weather_service := host.state.weather_service
  match parseAccountAddress ctx.paramBytes with
  | Except.error e => (Except.error (fromParseError e), host)
  | Except.ok icecream_vendor =>
    match host.invokeResponse weather_service "get" with
    | Except.error e => (Except.error (fromCallContractError e), host)
    | Except.ok res =>
      match res.2 with
      | none => (Except.error ContractError.ContractError, host)
      | some bytes =>
        match parseWeather bytes with
        | Except.error e => (Except.error (fromParseError e), host)
        | Except.ok weather =>
          match weather with
          | Weather.Rainy =>
            match host.invoke_transfer ctx.invoker amount with
            | Except.error e => (Except.error (fromTransferError e), host)
            | Except.ok host1 => (Except.ok (), host1)
          | Weather.Sunny =>
            match host.invoke_transfer icecream_vendor amount with
            | Except.error e => (Except.error (fromTransferError e), host)
            | Except.ok host1 => (Except.ok (), host1)

/-- `contract_replace_weather_service`: only the owner may replace the
stored weather service address. -/
def contract_replace_weather_service (ctx : ReceiveContext) (host : Host State) :
    Except ContractError Unit × Host State :=
  if Address.Account ctx.owner = ctx.sender then
    match parseContractAddress ctx.paramBytes with
    | Except.error e => (Except.error (fromParseError e), host)
    | Except.ok new_weather_service =>
      (Except.ok (), { host with state := ⟨new_weather_service⟩ })
  else (Except.error ContractError.Unauthenticated, host)

/-- `weather_get`: return the stored weather. -/
def weather_get (host : Host Weather) : Except ContractError Weather × Host Weather :=
  (Except.ok host.state, host)

/-- `weather_set`: only the owner may overwrite the stored weather. -/
def weather_set (ctx : ReceiveContext) (host : Host Weather) :
    Except ContractError Unit × Host Weather :=
  if Address.Account ctx.owner = ctx.sender then
    match parseWeather ctx.paramBytes with
    | Except.error e => (Except.error (fromParseError e), host)
    | Except.ok w => (Except.ok (), { host with state := w })
  else (Except.error ContractError.Unauthenticated, host)

end Icecream

namespace Integrate

/-- State of the integrate contract: a u32 counter. -/
structure State where
  counter : Nat
deriving DecidableEq, Repr

/-- The integrate contract's error type. -/
inductive Error where
  | ParseParamsError
  | TransferErrorAmountTooLarge
  | TransferErrorMissingAccount
deriving DecidableEq, Repr

/-- The `From<TransferError>` impl of the integrate contract. -/
def Error.fromTransferError : TransferError → Error
  | TransferError.AmountTooLarge => Error.TransferErrorAmountTooLarge
  | TransferError.MissingAccount => Error.TransferErrorMissingAccount

/-- The u32 modulus used for the wrapping counter increments. -/
def u32Mod : Nat := 4294967296

/-- `init`: the counter starts at zero. -/
def init : State := ⟨0⟩

/-- `receive`: parse an account address, increment the counter, transfer the
amount to that account, increment the counter again, return the counter. -/
def receive (ctx : ReceiveContext) (host : Host State) (amount : Amount) :
    Except Error Nat × Host State :=
  match parseAccountAddress ctx.paramBytes with
  | Except.error _ => (Except.error Error.ParseParamsError, host)
  | Except.ok acc =>
    let host1 : Host State := { host with state := ⟨(host.state.counter + 1) % u32Mod⟩ }
    match host1.invoke_transfer acc amount with
    | Except.error e => (Except.error (Error.fromTransferError e), host1)
    | Except.ok host2 =>
      let host3 : Host State := { host2 with state := ⟨(host2.state.counter + 1) % u32Mod⟩ }
      (Except.ok host3.state.counter, host3)

/-- `view`: return the stored counter without modifying anything. -/
def view (_ctx : ReceiveContext) (host : Host State) : Except Unit Nat × Host State :=
  (Except.ok host.state.counter, host)

end Integrate

/-- The test `Chain` of the source's `chain_tests` module: it holds the
optional slot time viewable inside the smart contracts. -/
structure Chain where
  slot_time : Option Nat
deriving DecidableEq, Repr

/-- `Chain::empty()`: no slot time set. -/
def Chain.empty : Chain :=
  { slot_time := none }

/-- `Chain::new(slot_time)`: slot time set to the given value. -/
def Chain.new (slot_time : Nat) : Chain :=
  { slot_time := some slot_time }

/-- `Chain::set_slot_time`: overwrite the optional slot time. -/
def Chain.set_slot_time (c : Chain) (slot_time : Nat) : Chain :=
  { c with slot_time := some slot_time }

/-- The distinguished failure of reading an unset slot time. -/
inductive SlotTimeError where
  | NoSlotTime
deriving DecidableEq, Repr

/-- Modelled from the spec: contract logic reading the slot time fails with a
distinguished no-slot-time condition exactly when it is unset (the source
documents this on `Chain.slot_time` but the engine body is a `todo!()`). -/
def readSlotTime (c : Chain) : Except SlotTimeError Nat :=
  match c.slot_time with
  | none => Except.error SlotTimeError.NoSlotTime
  | some t => Except.ok t

/-- The address allocator and contract registry of the chain: the highest
contract index used so far and the addresses of registered instances. -/
structure AllocChain where
  max_index_used : Nat
  registered : List ContractAddress
deriving DecidableEq, Repr

/-- The allocator of a fresh chain: no index used, no instance registered. -/
def AllocChain.empty : AllocChain :=
  { max_index_used := 0, registered := [] }

/-- Modelled from the spec: `create_contract_address` returns an address with
index one above the highest currently used and subindex 0, reserving the
index without registering an instance (the source body is a `todo!()`). -/
def create_contract_address (c : AllocChain) : ContractAddress × AllocChain :=
  (⟨c.max_index_used + 1, 0⟩, { c with max_index_used := c.max_index_used + 1 })

/-- Modelled from the spec: `contract_init` registers a new instance at the
next unused address, skipping every reserved one (the source body is a
`todo!()`). -/
def alloc_contract_init (c : AllocChain) : ContractAddress × AllocChain :=
  (⟨c.max_index_used + 1, 0⟩,
   { max_index_used := c.max_index_used + 1,
     registered := ContractAddress.mk (c.max_index_used + 1) 0 :: c.registered })

/-- An allocator operation: reserve an address, or initialize a contract. -/
inductive AllocOp where
  | allocate
  | register
deriving DecidableEq, Repr

/-- One allocator step. -/
def stepOp (c : AllocChain) : AllocOp → AllocChain
  | AllocOp.allocate => (create_contract_address c).2
  | AllocOp.register => (alloc_contract_init c).2

/-- Run a sequence of allocator operations. -/
def runOps (c : AllocChain) : List AllocOp → AllocChain
  | [] => c
  | op :: rest => runOps (stepOp c op) rest

/-- Allocator invariant: registered indices are bounded by the highest used
index and registered addresses are pairwise distinct. -/
def AllocGood (c : AllocChain) : Prop :=
  (∀ a ∈ c.registered, a.index ≤ c.max_index_used) ∧
    c.registered.Pairwise (fun a b => a ≠ b)

/-- The invoker account of the source's tests: 32 zero bytes. -/
def INVOKER_ADDR : AccountAddress := ⟨List.replicate 32 0⟩

/-- The weather service address of the source's tests. -/
def WEATHER_SERVICE : ContractAddress := ⟨1, 0⟩

/-- The vendor account of the source's tests: 32 one bytes. -/
def ICECREAM_VENDOR : AccountAddress := ⟨List.replicate 32 1⟩

/-- The icecream price of the source's tests: 6 CCD. -/
def ICECREAM_PRICE : Amount := ⟨6000000⟩

/-- The receive context of the icecream tests: invoker and owner are the
invoker account and the parameter is the serialized vendor address. -/
def testCtx : ReceiveContext :=
  { invoker := INVOKER_ADDR
    owner := INVOKER_ADDR
    sender := Address.Account INVOKER_ADDR
    paramBytes := List.replicate 32 1 }

/-- The host of `test_sunny_days`: the weather service mock answers `Sunny`,
the self balance is the icecream price, no account is missing. -/
def sunnyHost : Host Icecream.State :=
  { state := ⟨WEATHER_SERVICE⟩
    selfBalance := ICECREAM_PRICE
    missing := fun _ => false
    invokeResponse := fun _ _ => Except.ok (false, some [1])
    transfers := [] }

/-- The host of `test_rainy_days`: the weather service mock answers `Rainy`. -/
def rainyHost : Host Icecream.State :=
  { state := ⟨WEATHER_SERVICE⟩
    selfBalance := ICECREAM_PRICE
    missing := fun _ => false
    invokeResponse := fun _ _ => Except.ok (false, some [0])
    transfers := [] }

/-- The host of `test_missing_icecream_vendor`: sunny weather but the vendor
account is marked missing. -/
def missingVendorHost : Host Icecream.State :=
  { state := ⟨WEATHER_SERVICE⟩
    selfBalance := ICECREAM_PRICE
    missing := fun a => decide (a = ICECREAM_VENDOR)
    invokeResponse := fun _ _ => Except.ok (false, some [1])
    transfers := [] }

/-- The host of `test_missing_weather_service`: invoking the weather service
fails with `CallContractError::MissingContract`. -/
def missingServiceHost : Host Icecream.State :=
  { state := ⟨WEATHER_SERVICE⟩
    selfBalance := ICECREAM_PRICE
    missing := fun _ => false
    invokeResponse := fun _ _ => Except.error CallContractError.MissingContract
    transfers := [] }

/-- An integrate-contract host with counter 5 where every transfer succeeds. -/
def integrateHost : Host Integrate.State :=
  { state := ⟨5⟩
    selfBalance := ⟨10000000⟩
    missing := fun _ => false
    invokeResponse := fun _ _ => Except.ok (false, none)
    transfers := [] }

/-- An integrate-contract host with counter 5 where every account is marked
missing, so every transfer fails. -/
def integrateMissingHost : Host Integrate.State :=
  { state := ⟨5⟩
    selfBalance := ⟨10000000⟩
    missing := fun _ => true
    invokeResponse := fun _ _ => Except.ok (false, none)
    transfers := [] }

/-- The allocator invariant holds initially and is preserved by each step. -/
theorem allocGood_step (c : AllocChain) (op : AllocOp) (h : AllocGood c) :
    AllocGood (stepOp c op) := by
  obtain ⟨hb, hp⟩ := h
  cases op with
  | allocate =>
    refine ⟨?_, hp⟩
    intro a ha
    exact Nat.le_succ_of_le (hb a ha)
  | register =>
    constructor
    · intro a ha
      rcases List.mem_cons.mp ha with h1 | h2
      · subst h1
        exact Nat.le_refl _
      · exact Nat.le_succ_of_le (hb a h2)
    · refine List.pairwise_cons.mpr ⟨?_, hp⟩
      intro b hbmem heq
      have hidx : b.index ≤ c.max_index_used := hb b hbmem
      rw [← heq] at hidx
      simp [stepOp, alloc_contract_init] at hidx
  

/-- The allocator invariant is preserved by any run of operations. -/
theorem allocGood_runOps (ops : List AllocOp) (c : AllocChain) (h : AllocGood c) :
    AllocGood (runOps c ops) := by
  induction ops generalizing c with
  | nil => exact h
  | cons op rest ih => exact ih (stepOp c op) (allocGood_step c op h)

/-- C6: for every sequence of allocate (`create_contract_address`) and
register (`contract_init`) operations on one chain, no two registered
contract instances share a contract address; `create_contract_address`
returns index `max_index_used + 1` with subindex 0 without registering an
instance, and the next `contract_init` uses exactly the following index,
skipping the reserved address. -/
theorem address_uniqueness :
    (∀ ops : List AllocOp,
        (runOps AllocChain.empty ops).registered.Pairwise (fun a b => a ≠ b)) ∧
    (∀ c : AllocChain,
        (create_contract_address c).1 = ⟨c.max_index_used + 1, 0⟩ ∧
        (create_contract_address c).2.registered = c.registered ∧
        (alloc_contract_init (create_contract_address c).2).1
            = ⟨c.max_index_used + 2, 0⟩ ∧
        (alloc_contract_init (create_contract_address c).2).1
            ≠ (create_contract_address c).1) := by
  constructor
  · intro ops
    have hempty : AllocGood AllocChain.empty := by
      constructor
      · intro a ha
        simp [AllocChain.empty] at ha
      · simp [AllocChain.empty]
    exact (allocGood_runOps ops AllocChain.empty hempty).2
  · intro c
    refine ⟨rfl, rfl, rfl, ?_⟩
    simp [create_contract_address, alloc_contract_init, ContractAddress.mk.injEq]

/-- C8: `Chain::empty` has no slot time, `Chain::new t` has slot time `t`,
`set_slot_time` overwrites the optional value with `some t`, and reading the
slot time fails with the distinguished no-slot-time condition exactly when
the slot time is unset, succeeding with the stored value otherwise. -/
theorem slot_time_semantics :
    Chain.empty.slot_time = none ∧
    (∀ t : Nat, (Chain.new t).slot_time = some t) ∧
    (∀ (c : Chain) (t : Nat), (c.set_slot_time t).slot_time = some t) ∧
    (∀ c : Chain,
        readSlotTime c = Except.error SlotTimeError.NoSlotTime ↔ c.slot_time = none) ∧
    (∀ (c : Chain) (t : Nat), c.slot_time = some t → readSlotTime c = Except.ok t) := by
  refine ⟨rfl, fun t => rfl, fun c t => rfl, ?_, ?_⟩
  · intro c
    obtain ⟨st⟩ := c
    cases st <;> simp [readSlotTime]
  · intro c t hc
    obtain ⟨st⟩ := c
    cases st <;> simp_all [readSlotTime]

/-- The slot-time semantics at a concrete chain: `Chain::new 42` stores 42 and
reading it back succeeds with 42. -/
theorem slot_time_semantics_witness :
    (Chain.new 42).slot_time = some 42 ∧ readSlotTime (Chain.new 42) = Except.ok 42 :=
  ⟨slot_time_semantics.2.1 42, slot_time_semantics.2.2.2.2 (Chain.new 42) 42 rfl⟩

/-- C1: rollback atomicity. Whenever a top-level call fails, the post-call
host (balance, transfer list and contract state) is identical to the pre-call
host; in particular a failed `receive` call of the integrate contract, whose
transfer fails after the first counter increment, leaves the committed
counter at its pre-call value even though the un-rolled-back run had already
incremented it. -/
theorem rollback_atomicity :
    (∀ (S E A : Type) (f : Host S → Except E A × Host S) (host : Host S) (e : E),
        (chainUpdate f host).1 = Except.error e → (chainUpdate f host).2.1 = host) ∧
    (∀ (ctx : ReceiveContext) (host : Host Integrate.State) (amount : Amount)
        (acc : AccountAddress),
        parseAccountAddress ctx.paramBytes = Except.ok acc →
        host.missing acc = true →
        (Integrate.receive ctx host amount).2.state.counter
            = (host.state.counter + 1) % Integrate.u32Mod ∧
        (chainUpdate (fun h => Integrate.receive ctx h amount) host).1
            = Except.error Integrate.Error.TransferErrorMissingAccount ∧
        (chainUpdate (fun h => Integrate.receive ctx h amount) host).2.1 = host) := by
  constructor
  · intro S E A f host e hfail
    rcases hres : f host with ⟨r, h2⟩
    cases r with
    | ok a => simp [chainUpdate, hres] at hfail
    | error e2 => simp [chainUpdate, hres]
  · intro ctx host amount acc hparse hmiss
    refine ⟨?_, ?_, ?_⟩
    · simp [Integrate.receive, hparse, Host.invoke_transfer, hmiss]
    · simp [chainUpdate, Integrate.receive, hparse, Host.invoke_transfer, hmiss,
        Integrate.Error.fromTransferError]
    · simp [chainUpdate, Integrate.receive, hparse, Host.invoke_transfer, hmiss]

/-- The rollback at a concrete failing input: the integrate host whose
accounts are all missing fails the transfer, yet the chain-level call leaves
the host (counter 5) untouched. -/
theorem rollback_atomicity_witness :
    parseAccountAddress testCtx.paramBytes = Except.ok ICECREAM_VENDOR ∧
    integrateMissingHost.missing ICECREAM_VENDOR = true ∧
    (chainUpdate (fun h => Integrate.receive testCtx h ICECREAM_PRICE)
        integrateMissingHost).2.1 = integrateMissingHost :=
  ⟨by decide, rfl,
    (rollback_atomicity.2 testCtx integrateMissingHost ICECREAM_PRICE ICECREAM_VENDOR
      (by decide) rfl).2.2⟩

/-- C7: transfers never drive a balance negative. A transfer to a missing
account fails with `MissingAccount` regardless of balance, a transfer of more
than the balance fails with `AmountTooLarge`, and a successful transfer
debits exactly the amount; the integrate contract's `receive` surfaces the
two failures as `TransferErrorMissingAccount` and
`TransferErrorAmountTooLarge`. -/
theorem transfer_failures_distinguished :
    (∀ (S : Type) (h : Host S) (dest : AccountAddress) (amount : Amount),
        (h.missing dest = true →
            h.invoke_transfer dest amount = Except.error TransferError.MissingAccount) ∧
        (h.missing dest = false → h.selfBalance.micro_ccd < amount.micro_ccd →
            h.invoke_transfer dest amount = Except.error TransferError.AmountTooLarge) ∧
        (∀ h2 : Host S, h.invoke_transfer dest amount = Except.ok h2 →
            h2.selfBalance.micro_ccd + amount.micro_ccd = h.selfBalance.micro_ccd)) ∧
    (∀ (ctx : ReceiveContext) (host : Host Integrate.State) (amount : Amount)
        (acc : AccountAddress),
        parseAccountAddress ctx.paramBytes = Except.ok acc →
        (host.missing acc = true →
            (Integrate.receive ctx host amount).1
                = Except.error Integrate.Error.TransferErrorMissingAccount) ∧
        (host.missing acc = false → host.selfBalance.micro_ccd < amount.micro_ccd →
            (Integrate.receive ctx host amount).1
                = Except.error Integrate.Error.TransferErrorAmountTooLarge)) := by
  constructor
  · intro S h dest amount
    refine ⟨?_, ?_, ?_⟩
    · intro hm
      simp [Host.invoke_transfer, hm]
    · intro hm hb
      simp [Host.invoke_transfer, hm, hb]
    · intro h2 hok
      by_cases hm : h.missing dest
      · simp [Host.invoke_transfer, hm] at hok
      · by_cases hb : h.selfBalance.micro_ccd < amount.micro_ccd
        · simp [Host.invoke_transfer, hm, hb] at hok
        · simp [Host.invoke_transfer, hm, hb] at hok
          rw [← hok]
          simp
          omega
  · intro ctx host amount acc hparse
    constructor
    · intro hm
      simp [Integrate.receive, hparse, Host.invoke_transfer, hm,
        Integrate.Error.fromTransferError]
    · intro hm hb
      simp [Integrate.receive, hparse, Host.invoke_transfer, hm, hb,
        Integrate.Error.fromTransferError]

/-- The distinguished transfer failures at concrete inputs: a missing-account
transfer and a too-large transfer each fail with their own error, and the
integrate `receive` surfaces the missing-account case. -/
theorem transfer_failures_distinguished_witness :
    integrateMissingHost.invoke_transfer ICECREAM_VENDOR ICECREAM_PRICE
        = Except.error TransferError.MissingAccount ∧
    integrateHost.invoke_transfer ICECREAM_VENDOR ⟨20000000⟩
        = Except.error TransferError.AmountTooLarge ∧
    (Integrate.receive testCtx integrateMissingHost ICECREAM_PRICE).1
        = Except.error Integrate.Error.TransferErrorMissingAccount :=
  ⟨(transfer_failures_distinguished.1 Integrate.State integrateMissingHost
      ICECREAM_VENDOR ICECREAM_PRICE).1 rfl,
   (transfer_failures_distinguished.1 Integrate.State integrateHost
      ICECREAM_VENDOR ⟨20000000⟩).2.1 rfl (by decide),
   ((transfer_failures_distinguished.2 testCtx integrateMissingHost ICECREAM_PRICE
      ICECREAM_VENDOR (by decide)).1 rfl)⟩

/-- C10: a `receive` call whose parameter parses and whose transfer succeeds
returns `counter + 2` and stores `counter + 2` (no overflow assumed), and
`view` never fails and returns exactly the stored counter without modifying
the host. -/
theorem receive_success_view
    (ctx : ReceiveContext) (host : Host Integrate.State) (amount : Amount)
    (acc : AccountAddress)
    (hparse : parseAccountAddress ctx.paramBytes = Except.ok acc)
    (hmiss : host.missing acc = false)
    (hbal : amount.micro_ccd ≤ host.selfBalance.micro_ccd)
    (hover : host.state.counter + 2 < Integrate.u32Mod) :
    (Integrate.receive ctx host amount).1 = Except.ok (host.state.counter + 2) ∧
    (Integrate.receive ctx host amount).2.state.counter = host.state.counter + 2 ∧
    (∀ (ctx2 : ReceiveContext) (h : Host Integrate.State),
        Integrate.view ctx2 h = (Except.ok h.state.counter, h)) := by
  have hnlt : ¬ host.selfBalance.micro_ccd < amount.micro_ccd := Nat.not_lt.mpr hbal
  refine ⟨?_, ?_, fun ctx2 h => rfl⟩
  · simp [Integrate.receive, hparse, Host.invoke_transfer, hmiss, hnlt]
    simp [Integrate.u32Mod] at hover ⊢
    omega
  · simp [Integrate.receive, hparse, Host.invoke_transfer, hmiss, hnlt]
    simp [Integrate.u32Mod] at hover ⊢
    omega

/-- The successful `receive` at a concrete input: counter 5 becomes 7 and the
call returns 7. -/
theorem receive_success_view_witness :
    (Integrate.receive testCtx integrateHost ICECREAM_PRICE).1 = Except.ok 7 ∧
    (Integrate.receive testCtx integrateHost ICECREAM_PRICE).2.state.counter = 7 := by
  have h := receive_success_view testCtx integrateHost ICECREAM_PRICE ICECREAM_VENDOR
    (by decide) rfl (by decide) (by decide)
  exact ⟨h.1, h.2.1⟩

/-- C2: when the weather service answers `Sunny`, a `buy_icecream` call with
the vendor as parameter and enough balance to cover the amount succeeds and
its transfer list is exactly one transfer of the full amount to the vendor,
with no transfer to the invoker. -/
theorem buy_icecream_sunny
    (ctx : ReceiveContext) (host : Host Icecream.State) (amount : Amount)
    (vendor : AccountAddress) (stChanged : Bool) (bytes : List Nat)
    (hparse : parseAccountAddress ctx.paramBytes = Except.ok vendor)
    (hresp : host.invokeResponse host.state.weather_service "get"
        = Except.ok (stChanged, some bytes))
    (hw : Icecream.parseWeather bytes = Except.ok Icecream.Weather.Sunny)
    (hmiss : host.missing vendor = false)
    (hbal : amount.micro_ccd ≤ host.selfBalance.micro_ccd)
    (hpre : host.transfers = [])
    (hne : ctx.invoker ≠ vendor) :
    (Icecream.contract_buy_icecream ctx host amount).1 = Except.ok () ∧
    (Icecream.contract_buy_icecream ctx host amount).2.transfers = [(vendor, amount)] ∧
    ∀ p ∈ (Icecream.contract_buy_icecream ctx host amount).2.transfers,
        p.1 ≠ ctx.invoker := by
  have hnlt : ¬ host.selfBalance.micro_ccd < amount.micro_ccd := Nat.not_lt.mpr hbal
  refine ⟨?_, ?_, ?_⟩
  · simp [Icecream.contract_buy_icecream, hparse, hresp, hw, Host.invoke_transfer,
      hmiss, hnlt]
  · simp [Icecream.contract_buy_icecream, hparse, hresp, hw, Host.invoke_transfer,
      hmiss, hnlt, hpre]
  · simp [Icecream.contract_buy_icecream, hparse, hresp, hw, Host.invoke_transfer,
      hmiss, hnlt, hpre]
    exact fun heq => absurd heq.symm hne

/-- The sunny scenario at the source test's inputs: invoker with 32 zero
bytes, vendor with 32 one bytes, 6 CCD; the transfer list is exactly the
vendor transfer. -/
theorem buy_icecream_sunny_witness :
    (Icecream.contract_buy_icecream testCtx sunnyHost ICECREAM_PRICE).1
        = Except.ok () ∧
    (Icecream.contract_buy_icecream testCtx sunnyHost ICECREAM_PRICE).2.transfers
        = [(ICECREAM_VENDOR, ICECREAM_PRICE)] := by
  have h := buy_icecream_sunny testCtx sunnyHost ICECREAM_PRICE ICECREAM_VENDOR
    false [1] rfl rfl rfl rfl (by decide) rfl (by decide)
  exact ⟨h.1, h.2.1⟩

/-- C3: when the weather service answers `Rainy`, a `buy_icecream` call with
the vendor as parameter succeeds and its transfer list is exactly one
transfer of the full amount back to the invoker, with no transfer to the
vendor. -/
theorem buy_icecream_rainy
    (ctx : ReceiveContext) (host : Host Icecream.State) (amount : Amount)
    (vendor : AccountAddress) (stChanged : Bool) (bytes : List Nat)
    (hparse : parseAccountAddress ctx.paramBytes = Except.ok vendor)
    (hresp : host.invokeResponse host.state.weather_service "get"
        = Except.ok (stChanged, some bytes))
    (hw : Icecream.parseWeather bytes = Except.ok Icecream.Weather.Rainy)
    (hmiss : host.missing ctx.invoker = false)
    (hbal : amount.micro_ccd ≤ host.selfBalance.micro_ccd)
    (hpre : host.transfers = [])
    (hne : ctx.invoker ≠ vendor) :
    (Icecream.contract_buy_icecream ctx host amount).1 = Except.ok () ∧
    (Icecream.contract_buy_icecream ctx host amount).2.transfers
        = [(ctx.invoker, amount)] ∧
    ∀ p ∈ (Icecream.contract_buy_icecream ctx host amount).2.transfers,
        p.1 ≠ vendor := by
  have hnlt : ¬ host.selfBalance.micro_ccd < amount.micro_ccd := Nat.not_lt.mpr hbal
  refine ⟨?_, ?_, ?_⟩
  · simp [Icecream.contract_buy_icecream, hparse, hresp, hw, Host.invoke_transfer,
      hmiss, hnlt]
  · simp [Icecream.contract_buy_icecream, hparse, hresp, hw, Host.invoke_transfer,
      hmiss, hnlt, hpre]
  · simp [Icecream.contract_buy_icecream, hparse, hresp, hw, Host.invoke_transfer,
      hmiss, hnlt, hpre]
    exact hne

/-- The rainy scenario at the source test's inputs: the amount goes back to
the invoker and the transfer list has no other entry. -/
theorem buy_icecream_rainy_witness :
    (Icecream.contract_buy_icecream testCtx rainyHost ICECREAM_PRICE).1
        = Except.ok () ∧
    (Icecream.contract_buy_icecream testCtx rainyHost ICECREAM_PRICE).2.transfers
        = [(INVOKER_ADDR, ICECREAM_PRICE)] := by
  have h := buy_icecream_rainy testCtx rainyHost ICECREAM_PRICE ICECREAM_VENDOR
    false [0] rfl rfl rfl rfl (by decide) rfl (by decide)
  exact ⟨h.1, h.2.1⟩

/-- C4: when the vendor account is marked missing and the weather service
answers `Sunny`, `buy_icecream` fails with `ContractError::TransferError`
for every balance, and the chain-level call commits no transfers. -/
theorem buy_icecream_missing_vendor
    (ctx : ReceiveContext) (host : Host Icecream.State) (amount : Amount)
    (vendor : AccountAddress) (stChanged : Bool) (bytes : List Nat)
    (hparse : parseAccountAddress ctx.paramBytes = Except.ok vendor)
    (hresp : host.invokeResponse host.state.weather_service "get"
        = Except.ok (stChanged, some bytes))
    (hw : Icecream.parseWeather bytes = Except.ok Icecream.Weather.Sunny)
    (hmiss : host.missing vendor = true) :
    (Icecream.contract_buy_icecream ctx host amount).1
        = Except.error Icecream.ContractError.TransferError ∧
    (chainUpdate (fun h => Icecream.contract_buy_icecream ctx h amount) host).2.1
        = host ∧
    (chainUpdate (fun h => Icecream.contract_buy_icecream ctx h amount) host).2.1.transfers
        = host.transfers := by
  refine ⟨?_, ?_, ?_⟩
  · simp [Icecream.contract_buy_icecream, hparse, hresp, hw, Host.invoke_transfer,
      hmiss, Icecream.fromTransferError]
  · simp [chainUpdate, Icecream.contract_buy_icecream, hparse, hresp, hw,
      Host.invoke_transfer, hmiss]
  · simp [chainUpdate, Icecream.contract_buy_icecream, hparse, hresp, hw,
      Host.invoke_transfer, hmiss]

/-- The missing-vendor scenario at the source test's inputs: the call fails
with the transfer error and commits nothing. -/
theorem buy_icecream_missing_vendor_witness :
    (Icecream.contract_buy_icecream testCtx missingVendorHost ICECREAM_PRICE).1
        = Except.error Icecream.ContractError.TransferError ∧
    (chainUpdate (fun h => Icecream.contract_buy_icecream testCtx h ICECREAM_PRICE)
        missingVendorHost).2.1 = missingVendorHost := by
  have h := buy_icecream_missing_vendor testCtx missingVendorHost ICECREAM_PRICE
    ICECREAM_VENDOR false [1] rfl rfl rfl (by decide)
  exact ⟨h.1, h.2.1⟩

/-- C5: when invoking the weather service fails because no contract instance
is registered at the stored address, every `buy_icecream` update fails with
`ContractError::ContractError`, the reported energy spent is positive, the
chain-level call commits nothing, and `create_contract_address` registers no
instance at the address it reserves. -/
theorem buy_icecream_missing_weather_service
    (ctx : ReceiveContext) (host : Host Icecream.State) (amount : Amount)
    (vendor : AccountAddress)
    (hparse : parseAccountAddress ctx.paramBytes = Except.ok vendor)
    (hresp : host.invokeResponse host.state.weather_service "get"
        = Except.error CallContractError.MissingContract) :
    (Icecream.contract_buy_icecream ctx host amount).1
        = Except.error Icecream.ContractError.ContractError ∧
    (chainUpdate (fun h => Icecream.contract_buy_icecream ctx h amount) host).2.1
        = host ∧
    0 < (chainUpdate (fun h => Icecream.contract_buy_icecream ctx h amount) host).2.2.energy ∧
    (∀ c : AllocChain, (create_contract_address c).2.registered = c.registered) := by
  refine ⟨?_, ?_, ?_, fun c => rfl⟩
  · simp [Icecream.contract_buy_icecream, hparse, hresp, Icecream.fromCallContractError]
  · simp [chainUpdate, Icecream.contract_buy_icecream, hparse, hresp]
  · simp [chainUpdate, Icecream.contract_buy_icecream, hparse, hresp, baseDispatchCost]

/-- The missing-weather-service scenario at the source test's inputs. -/
theorem buy_icecream_missing_weather_service_witness :
    (Icecream.contract_buy_icecream testCtx missingServiceHost ICECREAM_PRICE).1
        = Except.error Icecream.ContractError.ContractError ∧
    0 < (chainUpdate (fun h => Icecream.contract_buy_icecream testCtx h ICECREAM_PRICE)
        missingServiceHost).2.2.energy := by
  have h := buy_icecream_missing_weather_service testCtx missingServiceHost
    ICECREAM_PRICE ICECREAM_VENDOR rfl rfl
  exact ⟨h.1, h.2.2.1⟩

/-- A weather-contract host storing `Rainy`, for exercising `weather_set`. -/
def weatherHost : Host Icecream.Weather :=
  { state := Icecream.Weather.Rainy
    selfBalance := ⟨0⟩
    missing := fun _ => false
    invokeResponse := fun _ _ => Except.ok (false, none)
    transfers := [] }

/-- An icecream-contract host, for exercising `replace_weather_service`. -/
def icecreamHost : Host Icecream.State :=
  { state := ⟨WEATHER_SERVICE⟩
    selfBalance := ⟨0⟩
    missing := fun _ => false
    invokeResponse := fun _ _ => Except.ok (false, none)
    transfers := [] }

/-- A context whose sender is a contract, hence not the owner account. -/
def contractSenderCtx : ReceiveContext :=
  { invoker := INVOKER_ADDR
    owner := INVOKER_ADDR
    sender := Address.Contract WEATHER_SERVICE
    paramBytes := List.replicate 32 1 }

/-- A context from the owner whose parameter bytes are 32 zero bytes. -/
def zeroParamCtx : ReceiveContext :=
  { invoker := INVOKER_ADDR
    owner := INVOKER_ADDR
    sender := Address.Account INVOKER_ADDR
    paramBytes := List.replicate 32 0 }

/-- C9: when the sender differs from the owner account, `weather_set` and
`replace_weather_service` both fail with `Unauthenticated` and leave the
host unchanged; when the sender is the owner account and the parameter
parses, they overwrite the stored weather (respectively the stored weather
service address) with the parsed value and succeed. -/
theorem owner_only_mutations
    (ctx : ReceiveContext) :
    (∀ host : Host Icecream.Weather, Address.Account ctx.owner ≠ ctx.sender →
        Icecream.weather_set ctx host
            = (Except.error Icecream.ContractError.Unauthenticated, host)) ∧
    (∀ host : Host Icecream.State, Address.Account ctx.owner ≠ ctx.sender →
        Icecream.contract_replace_weather_service ctx host
            = (Except.error Icecream.ContractError.Unauthenticated, host)) ∧
    (∀ (host : Host Icecream.Weather) (w : Icecream.Weather),
        Address.Account ctx.owner = ctx.sender →
        Icecream.parseWeather ctx.paramBytes = Except.ok w →
        Icecream.weather_set ctx host = (Except.ok (), { host with state := w })) ∧
    (∀ (host : Host Icecream.State) (a : ContractAddress),
        Address.Account ctx.owner = ctx.sender →
        parseContractAddress ctx.paramBytes = Except.ok a →
        Icecream.contract_replace_weather_service ctx host
            = (Except.ok (), { host with state := ⟨a⟩ })) := by
  refine ⟨?_, ?_, ?_, ?_⟩
  · intro host hne
    simp [Icecream.weather_set, hne]
  · intro host hne
    simp [Icecream.contract_replace_weather_service, hne]
  · intro host w heq hparse
    simp [Icecream.weather_set, heq, hparse]
  · intro host a heq hparse
    simp [Icecream.contract_replace_weather_service, heq, hparse]

/-- The owner checks at concrete inputs: a contract sender is rejected by
both entrypoints, the owner overwrites the weather with the parsed `Sunny`,
and the owner replaces the weather service with the parsed address. -/
theorem owner_only_mutations_witness :
    Icecream.weather_set contractSenderCtx weatherHost
        = (Except.error Icecream.ContractError.Unauthenticated, weatherHost) ∧
    Icecream.contract_replace_weather_service contractSenderCtx icecreamHost
        = (Except.error Icecream.ContractError.Unauthenticated, icecreamHost) ∧
    Icecream.weather_set testCtx weatherHost
        = (Except.ok (), { weatherHost with state := Icecream.Weather.Sunny }) ∧
    Icecream.contract_replace_weather_service zeroParamCtx icecreamHost
        = (Except.ok (), { icecreamHost with state := ⟨⟨0, 0⟩⟩ }) :=
  ⟨(owner_only_mutations contractSenderCtx).1 weatherHost (by decide),
   (owner_only_mutations contractSenderCtx).2.1 icecreamHost (by decide),
   (owner_only_mutations testCtx).2.2.1 weatherHost Icecream.Weather.Sunny rfl rfl,
   (owner_only_mutations zeroParamCtx).2.2.2 icecreamHost ⟨0, 0⟩ rfl (by decide)⟩

/-- The allocator at a concrete run: registering, reserving and registering
again yields pairwise distinct registered addresses, and the reserved
address differs from the next registered one. -/
theorem address_uniqueness_witness :
    (runOps AllocChain.empty
        [AllocOp.register, AllocOp.allocate, AllocOp.register]).registered.Pairwise
        (fun a b => a ≠ b) ∧
    (alloc_contract_init (create_contract_address AllocChain.empty).2).1
        ≠ (create_contract_address AllocChain.empty).1 :=
  ⟨address_uniqueness.1 [AllocOp.register, AllocOp.allocate, AllocOp.register],
   (address_uniqueness.2 AllocChain.empty).2.2.2⟩
